import Mathlib

/-!
Verification of the tire-market dashboard (src/app.py).

The pandas DataFrame loaded from the CSV is modelled as a `List Row`; numeric
columns are rationals, the two nullable columns are `Option String`.  Every
aggregation of the script becomes a Lean function on `List Row`:

* `df_filtered`            — the two-selector filter stage (lines 17-20);
* `sales_data`             — dedup + melt for the industry bar chart (line 30);
* `market_share`           — mean of the deduplicated SOM column (line 51),
  `none` standing for the NaN that pandas returns on an empty series;
* `df_competitor_sales`    — dedup, groupby-sum, sort desc, head 35 (lines 59-66);
* `brand_counts`, `total_brands`, `brand_percentages` — value counts and
  percentage shares of non-null brand names (lines 83-91);
* `df_top_competitors`     — dedup, groupby max/mean, percent formatting,
  sort desc, head 10 (lines 114-124);
* `top_competitor`, `top_competitor_callout` — the guarded callout (136-146);
* `competitor_options`, `df_competitor_pattern`, `df_pattern_sales` — the
  dependent competitor selector and pattern pie data (lines 153-159);
* `fitments`, `fitments_display` — distinct non-null fitments, first 5 (174-176).

`drop_duplicates` / `unique` keep the first occurrence of a value, so they are
modelled by `dedupF` below.  `sort_values` is modelled by a stable insertion
sort; `groupby` lists its groups in ascending key order as pandas does.
-/

/-- A sales record: one row of the loaded CSV (spec section 3).  Nullable
columns (brand name, fitments text) are `Option String`. -/
structure Row where
  COUNTRY_OR_TERRITORY : String
  TIRE_SIZE : String
  TOTAL_INDUSTRY_SALES : ℚ
  GOODYEAR_SALES : ℚ
  SOM_OF_BRAND : ℚ
  COMPETITOR_BRAND : String
  COMPETITOR_BRAND_SALES : ℚ
  COMPETITOR_SOM : ℚ
  BRAND_NAME : Option String
  COMPETITOR_PATTERN : String
  COMPETITOR_PATTERN_SALES : ℚ
  TOP_5_FITMENTS : Option String
deriving DecidableEq

/-- Helper for `dedupF`: emit each value the first time it appears, skipping
values already in `seen`. -/
def dedupFAux {α : Type} [DecidableEq α] (seen : List α) : List α → List α
  | [] => []
  | a :: l => if a ∈ seen then dedupFAux seen l else a :: dedupFAux (a :: seen) l

/-- pandas `drop_duplicates` / `Series.unique`: keep the first occurrence of
every value, preserving order. -/
def dedupF {α : Type} [DecidableEq α] (l : List α) : List α := dedupFAux [] l

/-- Descending comparison on a rational sort key, the order used by
`sort_values(..., ascending=False)` and by `value_counts`. -/
def descBy {α : Type} (key : α → ℚ) (a b : α) : Prop := key b ≤ key a

instance {α : Type} (key : α → ℚ) : DecidableRel (descBy key) :=
  fun a b => inferInstanceAs (Decidable (key b ≤ key a))

instance {α : Type} (key : α → ℚ) : IsTotal α (descBy key) :=
  ⟨fun a b => le_total (key b) (key a)⟩

instance {α : Type} (key : α → ℚ) : IsTrans α (descBy key) :=
  ⟨fun _ _ _ hab hbc => le_trans hbc hab⟩

/-- Stable descending sort by a rational key (ties keep first-occurrence
order, the stable policy stated in spec section 4.3). -/
def sortDescBy {α : Type} (key : α → ℚ) (l : List α) : List α :=
  List.insertionSort (descBy key) l

/-- Ascending sort of group keys: pandas `groupby` (default `sort=True`)
lists its groups in ascending key order. -/
def sortStr (l : List String) : List String :=
  List.insertionSort (fun a b => a ≤ b) l

/-- The group keys of a `groupby` on the first column: distinct key values in
ascending order. -/
def groupKeys {β : Type} (rows : List (String × β)) : List String :=
  sortStr (dedupF (rows.map Prod.fst))

/-- `groupby(col, as_index=False).sum()` on a two-column frame. -/
def groupbySum (rows : List (String × ℚ)) : List (String × ℚ) :=
  (groupKeys rows).map fun k =>
    (k, ((rows.filter fun p => p.1 == k).map Prod.snd).sum)

/-- Maximum of a group's values (`agg max`); groups are never empty, the `0`
default is unreachable. -/
def maxQ : List ℚ → ℚ
  | [] => 0
  | a :: l => l.foldl max a

/-- pandas `Series.mean()`: `none` models the NaN returned on an empty
series, otherwise the exact mean. -/
def meanQ : List ℚ → Option ℚ
  | [] => none
  | a :: l => some ((a :: l).sum / ((a :: l).length : ℚ))

/-- Mean of a group's values (`agg mean`); groups are never empty, so the
division is always by a positive count. -/
def meanOfGroup (l : List ℚ) : ℚ := l.sum / (l.length : ℚ)

/-- Floor of a rational as an integer, via flooring integer division. -/
def qfloor (q : ℚ) : ℤ := Int.fdiv q.num q.den

/-- Python fixed-point formatting to `prec` decimal places (round half to
even), as used by the percent format strings of the script. -/
def fmtFixed (prec : ℕ) (q : ℚ) : String :=
  let scaled : ℚ := q * (10 : ℚ) ^ prec
  let f : ℤ := qfloor scaled
  let frac : ℚ := scaled - (f : ℚ)
  let n : ℤ :=
    if frac < 1 / 2 then f
    else if 1 / 2 < frac then f + 1
    else if f % 2 = 0 then f else f + 1
  let sign := if n < 0 then "-" else ""
  let m : ℕ := n.natAbs
  let ip : ℕ := m / 10 ^ prec
  let fp : ℕ := m % 10 ^ prec
  let fpStr := toString fp
  let pad := String.mk (List.replicate (prec - fpStr.length) '0')
  if prec = 0 then sign ++ toString ip
  else sign ++ toString ip ++ "." ++ pad ++ fpStr

/-- Filter Stage (lines 17-20): the rows whose country and tire size both
equal the current selections, by exact equality. -/
def df_filtered (df : List Row) (selected_countries selected_tire_size : String) :
    List Row :=
  df.filter fun r =>
    r.COUNTRY_OR_TERRITORY == selected_countries && r.TIRE_SIZE == selected_tire_size

/-- Industry and Goodyear sales bar-chart data (line 30): project the two
sales columns, drop duplicate pairs, then melt into (series name, value)
pairs — one bar per remaining value. -/
def sales_data (t : List Row) : List (String × ℚ) :=
  let pairs := dedupF (t.map fun r => (r.TOTAL_INDUSTRY_SALES, r.GOODYEAR_SALES))
  (pairs.map fun p => ("TOTAL_INDUSTRY_SALES", p.1)) ++
    (pairs.map fun p => ("GOODYEAR_SALES", p.2))

/-- Market share metric (line 51): mean of the deduplicated SOM column;
`none` is the NaN mean of an empty selection. -/
def market_share (t : List Row) : Option ℚ :=
  meanQ (dedupF (t.map fun r => r.SOM_OF_BRAND))

/-- The rendered metric string (line 53): the mean times 100 formatted to two
decimals, and the string Python prints for NaN when the subset is empty. -/
def market_share_text (t : List Row) : String :=
  match market_share t with
  | none => "nan%"
  | some v => fmtFixed 2 (v * 100) ++ "%"

/-- Competitor sales ranking (lines 59-66): dedup on (brand, sales), group by
brand summing sales, sort descending by sales, keep the top 35. -/
def df_competitor_sales (t : List Row) : List (String × ℚ) :=
  (sortDescBy (fun p => p.2)
      (groupbySum
        (dedupF (t.map fun r => (r.COMPETITOR_BRAND, r.COMPETITOR_BRAND_SALES))))).take 35

/-- Rows with a non-null brand name (line 83). -/
def df_valid_brands (t : List Row) : List Row :=
  t.filter fun r => r.BRAND_NAME.isSome

/-- `value_counts` of the brand-name column (lines 86-87): occurrence count
per distinct brand, in descending count order. -/
def brand_counts (t : List Row) : List (String × ℕ) :=
  let brands := (df_valid_brands t).filterMap fun r => r.BRAND_NAME
  sortDescBy (fun p => (p.2 : ℚ)) ((dedupF brands).map fun b => (b, brands.count b))

/-- Total of the counts column (line 90). -/
def total_brands (t : List Row) : ℕ := ((brand_counts t).map Prod.snd).sum

/-- Percentage share of each brand (line 91): count over total, times 100. -/
def brand_percentages (t : List Row) : List (String × ℚ) :=
  (brand_counts t).map fun p => (p.1, ((p.2 : ℚ) / (total_brands t : ℚ)) * 100)

/-- Top-10 competitor table (lines 114-124): dedup on (brand, sales, SOM),
group by brand taking max sales and mean SOM, format the SOM as a percent
string to 4 decimals, sort descending by the max sales, keep the top 10. -/
def df_top_competitors (t : List Row) : List (String × ℚ × String) :=
  let base :=
    dedupF (t.map fun r =>
      (r.COMPETITOR_BRAND, r.COMPETITOR_BRAND_SALES, r.COMPETITOR_SOM))
  let grouped : List (String × ℚ × ℚ) :=
    (groupKeys base).map fun k =>
      let g := base.filter fun p => p.1 == k
      (k, maxQ (g.map fun p => p.2.1), meanOfGroup (g.map fun p => p.2.2))
  (sortDescBy (fun p => p.2.1)
      (grouped.map fun p => (p.1, p.2.1, fmtFixed 4 (p.2.2 * 100) ++ "%"))).take 10

/-- The first row of the top-10 table, when it exists (line 137). -/
def top_competitor (t : List Row) : Option (String × ℚ × String) :=
  (df_top_competitors t).head?

/-- The two callout values (lines 136-146): the top row's brand name and
formatted SOM, produced only when the top-10 table is non-empty. -/
def top_competitor_callout (t : List Row) : Option (String × String) :=
  (top_competitor t).map fun r => (r.1, r.2.2)

/-- Options of the dependent competitor selector (line 153): the unique brand
values of the current top-10 table. -/
def competitor_options (t : List Row) : List String :=
  dedupF ((df_top_competitors t).map fun p => p.1)

/-- Rows of the filtered table matching the selected competitor (line 156). -/
def df_competitor_pattern (t : List Row) (selected_competitor : String) : List Row :=
  t.filter fun r => r.COMPETITOR_BRAND == selected_competitor

/-- Pattern pie-chart data (line 159): dedup on (pattern, pattern sales). -/
def df_pattern_sales (t : List Row) (selected_competitor : String) :
    List (String × ℚ) :=
  dedupF ((df_competitor_pattern t selected_competitor).map fun r =>
    (r.COMPETITOR_PATTERN, r.COMPETITOR_PATTERN_SALES))

/-- Fitments (line 174): distinct non-null values of the fitments column, in
order of first occurrence. -/
def fitments (t : List Row) : List String :=
  dedupF (t.filterMap fun r => r.TOP_5_FITMENTS)

/-- The fitments actually displayed (lines 175-176): the first 5. -/
def fitments_display (t : List Row) : List String := (fitments t).take 5

/-! ### Sample data

Concrete records used by the scenario claim and by witnesses.  `rowA` and
`rowB` are the two rows of the spec's scenario: same country, tire size and
industry/Goodyear totals, different competitor brands. -/

/-- Second scenario row: competitor "B" with sales 150. -/
def rowB : Row where
  COUNTRY_OR_TERRITORY := "US"
  TIRE_SIZE := "P225/65R17"
  TOTAL_INDUSTRY_SALES := 1000
  GOODYEAR_SALES := 200
  SOM_OF_BRAND := 1 / 5
  COMPETITOR_BRAND := "B"
  COMPETITOR_BRAND_SALES := 150
  COMPETITOR_SOM := 3 / 20
  BRAND_NAME := none
  COMPETITOR_PATTERN := "p2"
  COMPETITOR_PATTERN_SALES := 150
  TOP_5_FITMENTS := none

/-- First scenario row: competitor "A" with sales 300. -/
def rowA : Row :=
  { rowB with
    COMPETITOR_BRAND := "A"
    COMPETITOR_BRAND_SALES := 300
    COMPETITOR_SOM := 3 / 10
    BRAND_NAME := some "Michelin"
    COMPETITOR_PATTERN := "p1"
    COMPETITOR_PATTERN_SALES := 300
    TOP_5_FITMENTS := some "Sedan" }

/-- The scenario dataset of spec section 8. -/
def dfScenario : List Row := [rowA, rowB]

/-! ### Properties of `dedupF` -/

theorem mem_dedupFAux {α : Type} [DecidableEq α] (seen l : List α) (x : α) :
    x ∈ dedupFAux seen l ↔ x ∈ l ∧ x ∉ seen := by
  induction l generalizing seen with
  | nil => simp [dedupFAux]
  | cons a l ih =>
    simp only [dedupFAux]
    by_cases ha : a ∈ seen
    · rw [if_pos ha, ih]
      constructor
      · exact fun h => ⟨List.mem_cons_of_mem a h.1, h.2⟩
      · rintro ⟨h1, h2⟩
        rcases List.mem_cons.mp h1 with h | h
        · subst h; exact absurd ha h2
        · exact ⟨h, h2⟩
    · rw [if_neg ha]
      constructor
      · intro h
        rcases List.mem_cons.mp h with h | h
        · subst h; exact ⟨List.mem_cons_self x l, ha⟩
        · have h3 := (ih (a :: seen)).mp h
          exact ⟨List.mem_cons_of_mem a h3.1,
            fun hs => h3.2 (List.mem_cons_of_mem a hs)⟩
      · rintro ⟨h1, h2⟩
        by_cases hxa : x = a
        · subst hxa; exact List.mem_cons_self x _
        · rcases List.mem_cons.mp h1 with h | h
          · exact absurd h hxa
          · refine List.mem_cons_of_mem a ((ih (a :: seen)).mpr ⟨h, ?_⟩)
            intro hs
            rcases List.mem_cons.mp hs with h4 | h4
            · exact hxa h4
            · exact h2 h4

theorem mem_dedupF {α : Type} [DecidableEq α] (l : List α) (x : α) :
    x ∈ dedupF l ↔ x ∈ l := by
  simp [dedupF, mem_dedupFAux]

theorem nodup_dedupFAux {α : Type} [DecidableEq α] (seen l : List α) :
    (dedupFAux seen l).Nodup := by
  induction l generalizing seen with
  | nil => exact List.nodup_nil
  | cons a l ih =>
    simp only [dedupFAux]
    split
    · exact ih seen
    · refine List.nodup_cons.mpr ⟨?_, ih (a :: seen)⟩
      intro hmem
      exact ((mem_dedupFAux _ _ _).mp hmem).2 (List.mem_cons_self a seen)

theorem nodup_dedupF {α : Type} [DecidableEq α] (l : List α) :
    (dedupF l).Nodup := nodup_dedupFAux [] l

theorem dedupF_perm_dedup {α : Type} [DecidableEq α] (l : List α) :
    (dedupF l).Perm l.dedup := by
  refine (List.perm_ext_iff_of_nodup (nodup_dedupF l) l.nodup_dedup).mpr fun x => ?_
  rw [mem_dedupF, List.mem_dedup]

/-- Summing the multiplicities of the distinct values gives back the length:
the identity behind the brand-distribution percentages. -/
theorem sum_map_count_dedupF {α : Type} [DecidableEq α] (l : List α) :
    ((dedupF l).map fun x => l.count x).sum = l.length := by
  have h := (dedupF_perm_dedup l).map fun x => l.count x
  rw [h.sum_eq]
  exact List.sum_map_count_dedup_eq_length l

/-! ### Properties of the sorts -/

theorem sortDescBy_perm {α : Type} (key : α → ℚ) (l : List α) :
    (sortDescBy key l).Perm l :=
  List.perm_insertionSort (descBy key) l

theorem sortDescBy_sorted {α : Type} (key : α → ℚ) (l : List α) :
    (sortDescBy key l).Sorted (descBy key) :=
  List.sorted_insertionSort (descBy key) l

theorem sortStr_perm (l : List String) : (sortStr l).Perm l :=
  List.perm_insertionSort _ l

/-! ### Arithmetic helpers -/

theorem list_sum_le_length (l : List ℚ) (h : ∀ x ∈ l, x ≤ 1) :
    l.sum ≤ (l.length : ℚ) := by
  induction l with
  | nil => simp
  | cons a l ih =>
    simp only [List.sum_cons, List.length_cons]
    push_cast
    have h1 := h a (List.mem_cons_self a l)
    have h2 := ih fun x hx => h x (List.mem_cons_of_mem a hx)
    linarith

theorem sum_map_mul_const {α : Type} (l : List α) (g : α → ℚ) (c : ℚ) :
    (l.map fun x => g x * c).sum = (l.map g).sum * c := by
  induction l with
  | nil => simp
  | cons a l ih => simp [ih, add_mul]

theorem cast_sum_map_snd {α : Type} (l : List (α × ℕ)) :
    (l.map fun p => ((p.2 : ℕ) : ℚ)).sum = (((l.map Prod.snd).sum : ℕ) : ℚ) := by
  induction l with
  | nil => simp
  | cons a l ih => simp [ih]

/-! ### The claims -/

/-- C7: the filter stage returns exactly the rows of the loaded table whose
country field and tire-size field equal the two selections, under exact
(case-sensitive) equality, in their original order. -/
theorem c7_filter_exact_match (df : List Row) (c s : String) :
    (df_filtered df c s).Sublist df ∧
      ∀ r : Row, r ∈ df_filtered df c s ↔
        r ∈ df ∧ r.COUNTRY_OR_TERRITORY = c ∧ r.TIRE_SIZE = s := by
  refine ⟨List.filter_sublist _, fun r => ?_⟩
  simp [df_filtered, List.mem_filter, and_assoc]

/-- C2: the competitor sales ranking (dedup on (brand, sales), group-sum by
brand, sort descending, head 35) never has more than 35 entries and its sales
values are non-increasing. -/
theorem c2_competitor_ranking_bounded_sorted (t : List Row) :
    (df_competitor_sales t).length ≤ 35 ∧
      (df_competitor_sales t).Sorted fun a b => b.2 ≤ a.2 := by
  constructor
  · rw [df_competitor_sales, List.length_take]
    exact min_le_left _ _
  · have h := sortDescBy_sorted (fun p : String × ℚ => p.2)
      (groupbySum
        (dedupF (t.map fun r => (r.COMPETITOR_BRAND, r.COMPETITOR_BRAND_SALES))))
    exact List.Pairwise.sublist (List.take_sublist _ _) h

/-- C3: the top-10 competitor table (dedup on (brand, sales, SOM), group by
brand with max sales and mean SOM, percent formatting, sort descending by max
sales, head 10) never has more than 10 rows and its sales column is
non-increasing. -/
theorem c3_top10_bounded_sorted (t : List Row) :
    (df_top_competitors t).length ≤ 10 ∧
      (df_top_competitors t).Sorted fun a b => b.2.1 ≤ a.2.1 := by
  constructor
  · rw [df_top_competitors, List.length_take]
    exact min_le_left _ _
  · have h := sortDescBy_sorted (fun p : String × ℚ × String => p.2.1)
      ((let base :=
          dedupF (t.map fun r =>
            (r.COMPETITOR_BRAND, r.COMPETITOR_BRAND_SALES, r.COMPETITOR_SOM))
        let grouped : List (String × ℚ × ℚ) :=
          (groupKeys base).map fun k =>
            let g := base.filter fun p => p.1 == k
            (k, maxQ (g.map fun p => p.2.1), meanOfGroup (g.map fun p => p.2.2))
        grouped.map fun p => (p.1, p.2.1, fmtFixed 4 (p.2.2 * 100) ++ "%")))
    exact List.Pairwise.sublist (List.take_sublist _ _) h

/-- C8: the fitments list consists of the distinct non-null values of the
fitments field, of which at most the first 5 (in first-occurrence order) are
displayed; null values are simply excluded. -/
theorem c8_fitments_distinct_nonnull (t : List Row) :
    (fitments t).Nodup ∧
      (∀ x, x ∈ fitments t ↔ ∃ r ∈ t, r.TOP_5_FITMENTS = some x) ∧
      fitments_display t = (fitments t).take 5 ∧
      (fitments_display t).length ≤ 5 := by
  refine ⟨nodup_dedupF _, fun x => ?_, rfl, ?_⟩
  · rw [fitments, mem_dedupF]
    simp [List.mem_filterMap]
  · rw [fitments_display, List.length_take]
    exact min_le_left _ _

/-- C10: the top-competitor callout values exist if and only if the top-10
table is non-empty, and when the table is non-empty they are the first row's
brand and formatted SOM; the empty case yields `none`, not an error. -/
theorem c10_callout_iff_nonempty (t : List Row) :
    (top_competitor_callout t = none ↔ df_top_competitors t = []) ∧
      ∀ r rest, df_top_competitors t = r :: rest →
        top_competitor_callout t = some (r.1, r.2.2) := by
  constructor
  · rw [top_competitor_callout, top_competitor, Option.map_eq_none',
      List.head?_eq_none_iff]
  · intro r rest h
    rw [top_competitor_callout, top_competitor, h]
    rfl

set_option maxRecDepth 100000 in
/-- Witness for C10 on the scenario dataset: the top-10 table is non-empty
and the callout surfaces its first row. -/
theorem c10_callout_iff_nonempty_witness :
    df_top_competitors dfScenario =
        ("A", 300, "30.0000%") :: [("B", 150, "15.0000%")] ∧
      top_competitor_callout dfScenario = some ("A", "30.0000%") :=
  ⟨by with_unfolding_all decide,
    (c10_callout_iff_nonempty dfScenario).2 ("A", 300, "30.0000%")
      [("B", 150, "15.0000%")] (by with_unfolding_all decide)⟩

/-- C1: when the filtered subset is empty, the market-share metric has no
numeric value (pandas NaN, rendered as the empty-state string "nan%"), the
competitor ranking, top-10 table, bar-chart data, brand distribution and
fitments list are all empty, and every aggregation still returns a value. -/
theorem c1_empty_subset_graceful (df : List Row) (c s : String)
    (h : df_filtered df c s = []) :
    market_share (df_filtered df c s) = none ∧
      market_share_text (df_filtered df c s) = "nan%" ∧
      df_competitor_sales (df_filtered df c s) = [] ∧
      df_top_competitors (df_filtered df c s) = [] ∧
      sales_data (df_filtered df c s) = [] ∧
      brand_percentages (df_filtered df c s) = [] ∧
      fitments_display (df_filtered df c s) = [] := by
  rw [h]
  exact ⟨rfl, rfl, rfl, rfl, rfl, rfl, rfl⟩

/-- Witness for C1: a selection matching no row of a concrete dataset. -/
theorem c1_empty_subset_graceful_witness :
    df_filtered dfScenario "DE" "X" = [] ∧
      market_share (df_filtered dfScenario "DE" "X") = none ∧
      df_competitor_sales (df_filtered dfScenario "DE" "X") = [] :=
  ⟨by with_unfolding_all decide,
    (c1_empty_subset_graceful dfScenario "DE" "X" (by with_unfolding_all decide)).1,
    (c1_empty_subset_graceful dfScenario "DE" "X" (by with_unfolding_all decide)).2.2.1⟩

set_option maxRecDepth 100000 in
/-- C6: on the two-row scenario dataset (identical country, size, industry
and Goodyear totals; competitors "A"/300 and "B"/150) with ("US",
"P225/65R17") selected, the (industry, Goodyear) pairs dedup to exactly one
row, the bar chart gets exactly two bars 1000 and 200, and the competitor
ranking is A=300 then B=150. -/
theorem c6_scenario_two_rows :
    dedupF ((df_filtered dfScenario "US" "P225/65R17").map fun r =>
        (r.TOTAL_INDUSTRY_SALES, r.GOODYEAR_SALES)) = [(1000, 200)] ∧
      sales_data (df_filtered dfScenario "US" "P225/65R17") =
        [("TOTAL_INDUSTRY_SALES", 1000), ("GOODYEAR_SALES", 200)] ∧
      df_competitor_sales (df_filtered dfScenario "US" "P225/65R17") =
        [("A", 300), ("B", 150)] := by
  with_unfolding_all decide

/-- Every brand shown in the top-10 table occurs as a competitor brand of
some row of the filtered table it was computed from. -/
theorem top10_brands_from_table (t : List Row) (b : String)
    (hb : b ∈ (df_top_competitors t).map fun p => p.1) :
    ∃ r ∈ t, r.COMPETITOR_BRAND = b := by
  rw [List.mem_map] at hb
  obtain ⟨p, hp, hpb⟩ := hb
  simp only [df_top_competitors] at hp
  have hp2 := List.mem_of_mem_take hp
  rw [(sortDescBy_perm _ _).mem_iff, List.mem_map] at hp2
  obtain ⟨q, hq, hqp⟩ := hp2
  rw [List.mem_map] at hq
  obtain ⟨k, hk, hkq⟩ := hq
  rw [groupKeys, (sortStr_perm _).mem_iff, mem_dedupF, List.mem_map] at hk
  obtain ⟨pr, hpr, hprk⟩ := hk
  rw [mem_dedupF, List.mem_map] at hpr
  obtain ⟨r, hr, hrpr⟩ := hpr
  refine ⟨r, hr, ?_⟩
  have h1 : r.COMPETITOR_BRAND = pr.1 := by rw [← hrpr]
  have h2 : q.1 = k := by rw [← hkq]
  have h3 : p.1 = q.1 := by rw [← hqp]
  rw [h1, hprk, ← h2, ← h3, hpb]

/-- C9: the competitor selector is populated only from the top-10 table's
brand values, so any selectable competitor occurs in the filtered table, and
every (pattern, pattern-sales) pair fed to the breakdown pie comes from a row
of the filtered table carrying that competitor brand. -/
theorem c9_selector_closed (t : List Row) (b : String)
    (hb : b ∈ competitor_options t) :
    (∃ r ∈ t, r.COMPETITOR_BRAND = b) ∧
      ∀ p ∈ df_pattern_sales t b, ∃ r ∈ t,
        r.COMPETITOR_BRAND = b ∧ r.COMPETITOR_PATTERN = p.1 ∧
          r.COMPETITOR_PATTERN_SALES = p.2 := by
  constructor
  · apply top10_brands_from_table
    rw [competitor_options, mem_dedupF] at hb
    exact hb
  · intro p hp
    rw [df_pattern_sales, mem_dedupF, List.mem_map] at hp
    obtain ⟨r, hr, hrp⟩ := hp
    rw [df_competitor_pattern, List.mem_filter] at hr
    refine ⟨r, hr.1, by simpa using hr.2, ?_, ?_⟩
    · rw [← hrp]
    · rw [← hrp]

/-- Witness for C9 on the scenario dataset: "A" is a selectable competitor
and indeed occurs in the table. -/
theorem c9_selector_closed_witness :
    "A" ∈ competitor_options dfScenario ∧
      ∃ r ∈ dfScenario, r.COMPETITOR_BRAND = "A" :=
  ⟨by with_unfolding_all decide,
    (c9_selector_closed dfScenario "A" (by with_unfolding_all decide)).1⟩

/-- C4: the rendered market-share metric is the mean of the deduplicated SOM
fractions times 100 to two decimals, and whenever the SOM fractions of the
filtered table lie in [0, 1] the metric value lies in [0, 100]. -/
theorem c4_market_share_in_range (t : List Row) (v : ℚ)
    (hb : ∀ x ∈ t.map fun r => r.SOM_OF_BRAND, 0 ≤ x ∧ x ≤ 1)
    (hv : market_share t = some v) :
    market_share_text t = fmtFixed 2 (v * 100) ++ "%" ∧
      0 ≤ v * 100 ∧ v * 100 ≤ 100 := by
  have htext : market_share_text t = fmtFixed 2 (v * 100) ++ "%" := by
    rw [market_share_text, hv]
  have hS : ∀ x ∈ dedupF (t.map fun r => r.SOM_OF_BRAND), 0 ≤ x ∧ x ≤ 1 :=
    fun x hx => hb x ((mem_dedupF _ x).mp hx)
  rw [market_share] at hv
  rcases hSd : dedupF (t.map fun r => r.SOM_OF_BRAND) with _ | ⟨a, l⟩
  · rw [hSd] at hv
    exact absurd hv (by simp [meanQ])
  · rw [hSd] at hv hS
    simp only [meanQ, Option.some.injEq] at hv
    have h0 : 0 ≤ (a :: l).sum := List.sum_nonneg fun x hx => (hS x hx).1
    have hle : (a :: l).sum ≤ ((a :: l).length : ℚ) :=
      list_sum_le_length _ fun x hx => (hS x hx).2
    have hlen : (0 : ℚ) < ((a :: l).length : ℚ) := by
      simp only [List.length_cons]
      push_cast
      positivity
    have hv0 : 0 ≤ v := by
      rw [← hv]
      exact div_nonneg h0 hlen.le
    have hv1 : v ≤ 1 := by
      rw [← hv]
      exact (div_le_one hlen).mpr hle
    exact ⟨htext, by linarith, by linarith⟩

/-- Witness for C4 on the scenario dataset: the SOM fractions are 1/5 and the
metric value 20 lies in the range. -/
theorem c4_market_share_in_range_witness :
    (∀ x ∈ dfScenario.map fun r => r.SOM_OF_BRAND, 0 ≤ x ∧ x ≤ 1) ∧
      market_share dfScenario = some (1 / 5) ∧
      0 ≤ (1 / 5 : ℚ) * 100 ∧ (1 / 5 : ℚ) * 100 ≤ 100 :=
  ⟨by with_unfolding_all decide, by with_unfolding_all decide,
    (c4_market_share_in_range dfScenario (1 / 5) (by with_unfolding_all decide)
      (by with_unfolding_all decide)).2⟩

/-- The total of the counts column is the number of brand-carrying rows. -/
theorem brand_counts_total (t : List Row) :
    total_brands t =
      ((df_valid_brands t).filterMap fun r => r.BRAND_NAME).length := by
  simp only [total_brands, brand_counts]
  rw [((sortDescBy_perm _ _).map Prod.snd).sum_eq, List.map_map]
  exact sum_map_count_dedupF _

/-- C5: the brand-distribution percentages (over rows with a non-null brand
name) sum to exactly 100 whenever at least one such row exists. -/
theorem c5_brand_distribution_sums_100 (t : List Row)
    (h : ∃ r ∈ t, r.BRAND_NAME.isSome) :
    ((brand_percentages t).map Prod.snd).sum = 100 := by
  have hlen : 0 < ((df_valid_brands t).filterMap fun r => r.BRAND_NAME).length := by
    obtain ⟨r, hrt, hrs⟩ := h
    obtain ⟨b, hbb⟩ := Option.isSome_iff_exists.mp hrs
    have hrv : r ∈ df_valid_brands t := List.mem_filter.mpr ⟨hrt, by simpa using hrs⟩
    have hbm : b ∈ (df_valid_brands t).filterMap fun r => r.BRAND_NAME :=
      List.mem_filterMap.mpr ⟨r, hrv, hbb⟩
    exact List.length_pos.mpr (List.ne_nil_of_mem hbm)
  have hTpos : 0 < total_brands t := by
    rw [brand_counts_total t]
    exact hlen
  have hT : ((total_brands t : ℕ) : ℚ) ≠ 0 := by
    have := Nat.pos_iff_ne_zero.mp hTpos
    exact_mod_cast this
  have hfun : (fun p : String × ℕ =>
        ((p.2 : ℚ) / ((total_brands t : ℕ) : ℚ)) * 100) =
      fun p : String × ℕ =>
        (p.2 : ℚ) * (100 / ((total_brands t : ℕ) : ℚ)) :=
    funext fun p => by ring
  calc ((brand_percentages t).map Prod.snd).sum
      = ((brand_counts t).map fun p =>
          ((p.2 : ℚ) / ((total_brands t : ℕ) : ℚ)) * 100).sum := by
        simp only [brand_percentages, List.map_map]
        rfl
    _ = ((brand_counts t).map fun p =>
          (p.2 : ℚ) * (100 / ((total_brands t : ℕ) : ℚ))).sum := by rw [hfun]
    _ = ((brand_counts t).map fun p => (p.2 : ℚ)).sum *
          (100 / ((total_brands t : ℕ) : ℚ)) :=
        sum_map_mul_const _ _ _
    _ = ((total_brands t : ℕ) : ℚ) * (100 / ((total_brands t : ℕ) : ℚ)) := by
        rw [cast_sum_map_snd]
        rfl
    _ = 100 := by
        rw [mul_comm, div_mul_cancel₀ _ hT]

/-- Witness for C5 on the scenario dataset: one row carries a brand name and
the distribution sums to 100. -/
theorem c5_brand_distribution_sums_100_witness :
    (∃ r ∈ dfScenario, r.BRAND_NAME.isSome) ∧
      ((brand_percentages dfScenario).map Prod.snd).sum = 100 :=
  ⟨by with_unfolding_all decide,
    c5_brand_distribution_sums_100 dfScenario (by with_unfolding_all decide)⟩
